import Mathlib

/-!
# Verification of the twitter-media-downloader core

Shallow embedding of `src/twitter/mod.rs` (and `Config` from `src/common/mod.rs`).

Modelling choices:
* The filesystem is a finite map from path strings to file contents,
  represented as an association list (`FS`); `fsWrite` prepends, `fsRead`
  takes the first binding, mirroring a mutable store.
* Network effects are made observable through a `World` value carrying the
  filesystem and a trace of network events (`NetEvent`): one event per
  account lookup, per page-fetch request sent, and per media GET issued.
* The upstream API and the HTTP transport are an environment `Env` of pure
  response functions; `Except String` models `Result<_, Box<dyn Error>>`.
* `u64` values are `Nat` with the explicit bound `U64_MAX`; the download
  counters (`u32` in the source) stay far below their width in every claim,
  so they are plain `Nat`.
* The unbounded `loop` in `start_download` is given fuel; `none` means the
  iteration bound was exhausted, never a program outcome.
-/

/-- Name of the checkpoint file (`CHECKPOINT_FILENAME` in the source). -/
def CHECKPOINT_FILENAME : String := "checkpoint"

/-- Largest value of a `u64`, the checkpoint sentinel (`u64::MAX`). -/
def U64_MAX : Nat := 2 ^ 64 - 1

/-- Filesystem model: association list from paths to file contents. -/
abbrev FS := List (String × String)

/-- Look a file up by path (first binding wins). -/
def fsRead (fs : FS) (p : String) : Option String :=
  fs.lookup p

/-- Create or overwrite a file: prepend the binding, shadowing older ones. -/
def fsWrite (fs : FS) (p c : String) : FS :=
  (p, c) :: fs

/-- `Path::exists` on the model. -/
def fsExists (fs : FS) (p : String) : Bool :=
  (fsRead fs p).isSome

/-- `Config` from `src/common/mod.rs`. -/
structure Config where
  bearer_token : String
  username : String
  count : Nat
  reset_marker : Bool
  download_all : Bool
  output_dir : String
  deriving DecidableEq, Repr

/-- `MediaType` of the twitter-v2 client, restricted to the variants the code
compares against (everything other than `Photo` behaves alike). -/
inductive MediaType where
  | Photo
  | Video
  | AnimatedGif
  deriving DecidableEq, Repr

/-- A remote URL: the full string handed to the HTTP GET and its path
component (`Url::path`). -/
structure Url where
  urlString : String
  path : String
  deriving DecidableEq, Repr

/-- `Media` object of the twitter-v2 client: stable key, kind, optional URL. -/
structure Media where
  media_key : String
  kind : MediaType
  url : Option Url
  deriving DecidableEq, Repr

/-- `Attachments` of a tweet: optional list of media keys. -/
structure Attachments where
  media_keys : Option (List String)
  deriving DecidableEq, Repr

/-- A tweet: numeric id plus optional attachments. -/
structure Tweet where
  id : Nat
  attachments : Option Attachments
  deriving DecidableEq, Repr

/-- Response metadata; `oldest_id` is absent when there is no more data. -/
structure Meta where
  oldest_id : Option String
  deriving DecidableEq, Repr

/-- `Expansions`: the media objects referenced by the tweets' media keys. -/
structure Expansions where
  media : Option (List Media)
  deriving DecidableEq, Repr

/-- One page of the user-tweets endpoint: data, includes and meta, each
optional exactly as in the client library. -/
structure TweetsResponse where
  data : Option (List Tweet)
  includes : Option Expansions
  meta : Option Meta
  deriving DecidableEq, Repr

/-- The varying parts of the request built in `download_media`: user id,
`max_results`, and the optional `until_id` bound. The constant query
configuration (exclude replies and retweets, media/tweet fields, attachment
expansion) is fixed in the source and carries no information, so it is
elided here. -/
structure TweetsRequest where
  user_id : Nat
  max_results : Nat
  until_id : Option Nat
  deriving DecidableEq, Repr

/-- Observable network operations of one run. -/
inductive NetEvent where
  | userLookup (username : String)
  | pageFetch (req : TweetsRequest)
  | mediaGet (url : String)
  deriving DecidableEq, Repr

/-- Program state threaded through the run: the filesystem and the trace of
network events, in order of occurrence. -/
structure World where
  fs : FS
  events : List NetEvent
  deriving DecidableEq, Repr

/-- The external collaborators: account lookup (`get_user_by_username`,
returning the optional user data), the paginated tweets endpoint, and the
raw HTTP GET used for media bytes. Errors model transport failures. -/
structure Env where
  lookupUser : String → Except String (Option Nat)
  fetchTweets : TweetsRequest → Except String TweetsResponse
  net : String → Except String String

/-- `get_user_output_dir`: the per-user directory `output_dir/username`
(directory creation is idempotent and not part of the file map). -/
def get_user_output_dir (output_dir username : String) : String :=
  output_dir ++ "/" ++ username

/-- `get_user_checkpoint_file_path`: `user_output_dir/checkpoint`. -/
def get_user_checkpoint_file_path (user_output_dir : String) : String :=
  user_output_dir ++ "/" ++ CHECKPOINT_FILENAME

/-- `update_checkpoint`: overwrite the checkpoint file with the given text
and return the text untouched. -/
def update_checkpoint (fs : FS) (path checkpoint : String) : FS × String :=
  (fsWrite fs path checkpoint, checkpoint)

/-- Rust's `str::parse::<u64>()`: an optional leading `+`, then one or more
decimal digits, rejecting values above `u64::MAX`. -/
def parse_u64 (s : String) : Option Nat :=
  let cs := match s.data with
    | '+' :: rest => rest
    | cs => cs
  if cs ≠ [] ∧ cs.all Char.isDigit then
    let n := cs.foldl (fun acc c => acc * 10 + (c.toNat - Char.toNat '0')) 0
    if n ≤ U64_MAX then some n else none
  else
    none

/-- `get_checkpoint`: on reset or missing file, write the sentinel and
return it; otherwise read the file and parse, falling back to the sentinel
on parse failure (`unwrap_or(u64::MAX)`). -/
def get_checkpoint (fs : FS) (path : String) (reset_marker : Bool) : FS × Nat :=
  if reset_marker || !(fsExists fs path) then
    ((update_checkpoint fs path (toString U64_MAX)).1, U64_MAX)
  else
    match fsRead fs path with
    | some contents => (fs, (parse_u64 contents).getD U64_MAX)
    | none => (fs, U64_MAX)

/-- Rust's `str::split("/")` on the characters of the path: splits into the
(never empty) list of groups between slashes. -/
def split_on_slash : List Char → List (List Char)
  | [] => [[]]
  | c :: rest =>
    if c = '/' then
      [] :: split_on_slash rest
    else
      match split_on_slash rest with
      | [] => [[c]]
      | g :: gs => (c :: g) :: gs

/-- `url.path().split("/").last().unwrap_or("")`. -/
def last_segment (s : String) : String :=
  String.mk (((split_on_slash s.data).getLast?).getD [])

/-- The deterministic local filename
`{media_key}_{username}_{basename of the url path}`. -/
def local_filename (media : Media) (username : String) (u : Url) : String :=
  media.media_key ++ "_" ++ username ++ "_" ++ last_segment u.path

/-- `download_url`: skip when the target exists, otherwise GET the bytes
(recording the network event) and write the file; no URL is an error. -/
def download_url (env : Env) (username : String) (user_output_dir : String)
    (media : Media) (w : World) : World × Except String Bool :=
  match media.url with
  | some u =>
    let output_file := user_output_dir ++ "/" ++ local_filename media username u
    if !(fsExists w.fs output_file) then
      let w1 : World := { w with events := w.events ++ [NetEvent.mediaGet u.urlString] }
      match env.net u.urlString with
      | Except.ok body => ({ w1 with fs := fsWrite w1.fs output_file body }, Except.ok true)
      | Except.error e => (w1, Except.error e)
    else
      (w, Except.ok false)
  | none => (w, Except.error "Media url not available.")

/-- `generate_media_map`: fold the expansion's media list into a key-indexed
map; prepending makes later inserts shadow earlier ones like
`HashMap::insert`. -/
def generate_media_map (expansions : Option Expansions) : List (String × Media) :=
  match expansions with
  | some e =>
    match e.media with
    | some ms => ms.foldl (fun mm m => (m.media_key, m) :: mm) []
    | none => []
  | none => []

/-- Per-tweet inner loop of `download_media`: walk the tweet's media keys,
downloading photos. The third component, when `some`, is the early return
`Ok((tweet.id.to_string(), count))` taken when a file already exists and
`download_all` is off; per-item errors are logged and skipped. -/
def process_keys (env : Env) (config : Config) (user_output_dir : String)
    (media_map : List (String × Media)) (tweet : Tweet) :
    List String → World → Nat → World × Nat × Option (String × Nat)
  | [], w, count => (w, count, none)
  | media_key :: rest, w, count =>
    match media_map.lookup media_key with
    | some media =>
      if media.kind = MediaType.Photo then
        match download_url env config.username user_output_dir media w with
        | (w1, Except.ok d) =>
          if d then
            process_keys env config user_output_dir media_map tweet rest w1 (count + 1)
          else if !config.download_all then
            (w1, count, some (toString tweet.id, count))
          else
            process_keys env config user_output_dir media_map tweet rest w1 count
        | (w1, Except.error _) =>
          process_keys env config user_output_dir media_map tweet rest w1 count
      else
        process_keys env config user_output_dir media_map tweet rest w count
    | none => process_keys env config user_output_dir media_map tweet rest w count

/-- Outer loop of `download_media` over the page's tweets; an early return
from the inner loop propagates. -/
def process_tweets (env : Env) (config : Config) (user_output_dir : String)
    (media_map : List (String × Media)) :
    List Tweet → World → Nat → World × Nat × Option (String × Nat)
  | [], w, count => (w, count, none)
  | tweet :: rest, w, count =>
    match tweet.attachments with
    | some attachments =>
      match attachments.media_keys with
      | some media_keys =>
        match process_keys env config user_output_dir media_map tweet media_keys w count with
        | (w1, count1, some early) => (w1, count1, some early)
        | (w1, count1, none) =>
          process_tweets env config user_output_dir media_map rest w1 count1
      | none => process_tweets env config user_output_dir media_map rest w count
    | none => process_tweets env config user_output_dir media_map rest w count

/-- The request `download_media` builds: `until_id` is set exactly when the
marker differs from the sentinel (`if marker != u64::MAX`). -/
def build_tweets_request (config : Config) (id marker : Nat) : TweetsRequest :=
  { user_id := id
    max_results := config.count
    until_id := if marker ≠ U64_MAX then some marker else none }

/-- `download_media`: build and send the page request (recording the network
event), process the tweets, then read the response metadata: an `oldest_id`
becomes the result cursor, its absence is the "No more tweets" error, and a
missing meta is the fatal "Cannot access Tweets Meta" error. -/
def download_media (env : Env) (config : Config) (id marker : Nat) (w : World) :
    World × Except String (String × Nat) :=
  let user_output_dir := get_user_output_dir config.output_dir config.username
  let req_tweets := build_tweets_request config id marker
  let w0 : World := { w with events := w.events ++ [NetEvent.pageFetch req_tweets] }
  match env.fetchTweets req_tweets with
  | Except.error e => (w0, Except.error e)
  | Except.ok tweets_response =>
    let processed :=
      match tweets_response.data with
      | some td =>
        let media_map := generate_media_map tweets_response.includes
        process_tweets env config user_output_dir media_map td w0 0
      | none => (w0, 0, none)
    match processed with
    | (w1, _, some early) => (w1, Except.ok early)
    | (w1, count, none) =>
      match tweets_response.meta with
      | some meta =>
        match meta.oldest_id with
        | some oldest_id => (w1, Except.ok (oldest_id, count))
        | none =>
          (w1, Except.error ("username: " ++ config.username ++ ". No more tweets"))
      | none =>
        (w1, Except.error
          ("username: " ++ config.username ++ ". Cannot access Tweets Meta. Something is up!"))

/-- `get_twitter_id`: reject an empty username, then look the account up
(one network event); a missing user or a zero id is an error. -/
def get_twitter_id (env : Env) (config : Config) (w : World) :
    World × Except String Nat :=
  if config.username.length = 0 then
    (w, Except.error "username is required to lookup user id")
  else
    let w1 : World := { w with events := w.events ++ [NetEvent.userLookup config.username] }
    match env.lookupUser config.username with
    | Except.error e => (w1, Except.error e)
    | Except.ok (some uid) =>
      if uid > 0 then (w1, Except.ok uid)
      else (w1, Except.error ("Cannot find id for username " ++ config.username))
    | Except.ok none =>
      (w1, Except.error ("Cannot find id for username " ++ config.username))

/-- The `loop` body of `start_download`, with fuel. Reads the checkpoint
(honouring the reset flag once), stops with "Ok" at cursor 0, otherwise
downloads a page: success adds the page count, persists the returned cursor
and repeats only in `download_all` mode; a page error breaks the loop, and
both exits report the accumulated total. -/
def start_download_loop (env : Env) (config : Config) (id : Nat) (path : String) :
    Nat → Bool → Nat → World → Option (World × String)
  | 0, _, _, _ => none
  | fuel + 1, reset_once, total_count, w =>
    let (fs1, checkpoint) := get_checkpoint w.fs path reset_once
    let w1 : World := { w with fs := fs1 }
    if checkpoint = 0 then
      some (w1, "Ok")
    else
      match download_media env config id checkpoint w1 with
      | (w2, Except.ok (oldest_id, count)) =>
        let total_count1 := total_count + count
        let (fs2, _) := update_checkpoint w2.fs path oldest_id
        let w3 : World := { w2 with fs := fs2 }
        if !config.download_all then
          some (w3, "Download complete. " ++ toString total_count1 ++ " files downloaded.")
        else
          start_download_loop env config id path fuel false total_count1 w3
      | (w2, Except.error _) =>
        some (w2, "Download complete. " ++ toString total_count ++ " files downloaded.")

/-- `start_download`: resolve the account id, then run the download loop on
the per-user checkpoint path, starting from the configured reset flag and a
zero total. -/
def start_download (env : Env) (config : Config) (fuel : Nat) (w : World) :
    Option (World × Except String String) :=
  match get_twitter_id env config w with
  | (w1, Except.error e) => some (w1, Except.error e)
  | (w1, Except.ok id) =>
    let user_output_dir := get_user_output_dir config.output_dir config.username
    let path := get_user_checkpoint_file_path user_output_dir
    match start_download_loop env config id path fuel config.reset_marker 0 w1 with
    | some (w2, s) => some (w2, Except.ok s)
    | none => none

/-- Decidable equality for `Except`, needed to evaluate run results. -/
instance {e a : Type} [DecidableEq e] [DecidableEq a] : DecidableEq (Except e a) := fun x y =>
  match x, y with
  | Except.ok v, Except.ok v2 =>
    if h : v = v2 then isTrue (by rw [h]) else isFalse (by intro he; cases he; exact h rfl)
  | Except.error v, Except.error v2 =>
    if h : v = v2 then isTrue (by rw [h]) else isFalse (by intro he; cases he; exact h rfl)
  | Except.ok _, Except.error _ => isFalse (by intro he; cases he)
  | Except.error _, Except.ok _ => isFalse (by intro he; cases he)

/-! ## Concrete test fixtures

Small closed environments used to evaluate the embedded program on concrete
inputs: an account with two photo tweets whose page metadata carries no
oldest id ("no more data"), and an account whose second photo is already
on disk. -/

/-- A page of two tweets, one photo each, whose metadata lacks an oldest id
(the "no more data" signal). -/
def pageNoMore : TweetsResponse :=
  { data := some [
      { id := 11, attachments := some { media_keys := some ["k1"] } },
      { id := 12, attachments := some { media_keys := some ["k2"] } }]
    includes := some { media := some [
      { media_key := "k1", kind := MediaType.Photo,
        url := some { urlString := "http://x/a.jpg", path := "/a.jpg" } },
      { media_key := "k2", kind := MediaType.Photo,
        url := some { urlString := "http://x/b.jpg", path := "/b.jpg" } }] }
    meta := some { oldest_id := none } }

/-- Environment that resolves every username to id 7, serves `pageNoMore`,
and answers every GET with the body "bytes". -/
def envNoMore : Env :=
  { lookupUser := fun _ => Except.ok (some 7)
    fetchTweets := fun _ => Except.ok pageNoMore
    net := fun _ => Except.ok "bytes" }

/-- Exhaustive-mode configuration for user "alice" writing below "out". -/
def configAll : Config :=
  { bearer_token := "t", username := "alice", count := 100,
    reset_marker := false, download_all := true, output_dir := "out" }

/-- Same configuration in single-page (non-exhaustive) mode. -/
def configOne : Config := { configAll with download_all := false }

/-- Initial world whose checkpoint file holds the cursor 100. -/
def wStart : World := { fs := [("out/alice/checkpoint", "100")], events := [] }

/-- Initial world whose checkpoint file holds the cursor 0. -/
def wZero : World := { fs := [("out/alice/checkpoint", "0")], events := [] }

/-- A page of two photo tweets with the normal oldest-id metadata. -/
def pageSecondExists : TweetsResponse :=
  { data := some [
      { id := 21, attachments := some { media_keys := some ["m1"] } },
      { id := 22, attachments := some { media_keys := some ["m2"] } }]
    includes := some { media := some [
      { media_key := "m1", kind := MediaType.Photo,
        url := some { urlString := "http://x/c.jpg", path := "/c.jpg" } },
      { media_key := "m2", kind := MediaType.Photo,
        url := some { urlString := "http://x/d.jpg", path := "/d.jpg" } }] }
    meta := some { oldest_id := some "21" } }

/-- Environment serving `pageSecondExists`. -/
def envSecondExists : Env :=
  { lookupUser := fun _ => Except.ok (some 7)
    fetchTweets := fun _ => Except.ok pageSecondExists
    net := fun _ => Except.ok "bytes" }

/-- Initial world where the second tweet's photo is already downloaded. -/
def wSecondExists : World :=
  { fs := [("out/alice/m2_alice_d.jpg", "old"), ("out/alice/checkpoint", "100")],
    events := [] }

/-- The URL of the first photo of `pageSecondExists`. -/
def urlC : Url := { urlString := "http://x/c.jpg", path := "/c.jpg" }

/-- The first photo of `pageSecondExists`. -/
def mediaC : Media := { media_key := "m1", kind := MediaType.Photo, url := some urlC }

/-- The URL of the second photo of `pageSecondExists`. -/
def urlD : Url := { urlString := "http://x/d.jpg", path := "/d.jpg" }

/-- The second photo of `pageSecondExists`, already present on disk. -/
def mediaD : Media := { media_key := "m2", kind := MediaType.Photo, url := some urlD }

/-- The second tweet of `pageSecondExists`. -/
def tweet22 : Tweet := { id := 22, attachments := some { media_keys := some ["m2"] } }

/-- The state reached after downloading the first photo of
`pageSecondExists` within the page started from `wSecondExists`. -/
def wAfterFirst : World :=
  { fs := [("out/alice/m1_alice_c.jpg", "bytes"), ("out/alice/m2_alice_d.jpg", "old"),
           ("out/alice/checkpoint", "100")],
    events := [NetEvent.pageFetch { user_id := 7, max_results := 100, until_id := some 100 },
               NetEvent.mediaGet "http://x/c.jpg"] }

/-- The state after processing the whole `pageNoMore` page from `wStart`:
both photos downloaded, page request and two GETs on the trace. -/
def wNoMoreProcessed : World :=
  { fs := [("out/alice/k2_alice_b.jpg", "bytes"), ("out/alice/k1_alice_a.jpg", "bytes"),
           ("out/alice/checkpoint", "100")],
    events := [NetEvent.pageFetch { user_id := 7, max_results := 100, until_id := some 100 },
               NetEvent.mediaGet "http://x/a.jpg", NetEvent.mediaGet "http://x/b.jpg"] }

/-- A photo media item carrying no remote URL. -/
def mediaNoUrl : Media := { media_key := "n1", kind := MediaType.Photo, url := none }

/-- A tweet used as the current post while exercising per-item errors. -/
def tweet30 : Tweet := { id := 30, attachments := none }

/-- A URL whose path ends in a slash, so the basename is empty. -/
def urlSlash : Url := { urlString := "http://x/pics/", path := "/pics/" }

/-- A photo media item whose URL path yields no last segment. -/
def mediaSlash : Media := { media_key := "p1", kind := MediaType.Photo, url := some urlSlash }

/-- A world already holding the empty-basename file of `mediaSlash`. -/
def wSlashExists : World := { fs := [("out/alice/p1_alice_", "old")], events := [] }

/-! ## Basic lemmas about the filesystem model -/

lemma fsRead_fsWrite_self (fs : FS) (p c : String) :
    fsRead (fsWrite fs p c) p = some c := by
  simp [fsRead, fsWrite, List.lookup]

lemma fsExists_fsWrite_self (fs : FS) (p c : String) :
    fsExists (fsWrite fs p c) p = true := by
  simp [fsExists, fsRead_fsWrite_self]

lemma fsRead_fsWrite (fs : FS) (p c q : String) :
    fsRead (fsWrite fs p c) q = if (q == p : Bool) then some c else fsRead fs q := by
  simp only [fsRead, fsWrite, List.lookup]
  cases hqp : q == p <;> simp

lemma fsExists_fsWrite_mono (fs : FS) (p c q : String) (h : fsExists fs q = true) :
    fsExists (fsWrite fs p c) q = true := by
  unfold fsExists at *
  rw [fsRead_fsWrite]
  cases hqp : q == p
  · simpa using h
  · simp

lemma fsExists_of_fsRead {fs : FS} {p s : String} (h : fsRead fs p = some s) :
    fsExists fs p = true := by
  simp [fsExists, h]

/-- Claim C4: checkpoint read. If the reset flag is set or the file is
missing, the sentinel `u64::MAX` is written to the file and returned; an
existing file is parsed as a `u64`, with a parse failure yielding the
sentinel without any error, exactly like the missing-file case. -/
theorem get_checkpoint_reset_missing_parse_spec (fs : FS) (path : String) (reset : Bool) :
    (reset = true →
      get_checkpoint fs path reset = (fsWrite fs path (toString U64_MAX), U64_MAX)) ∧
    (fsExists fs path = false →
      get_checkpoint fs path reset = (fsWrite fs path (toString U64_MAX), U64_MAX)) ∧
    (∀ s, reset = false → fsRead fs path = some s → parse_u64 s = none →
      get_checkpoint fs path reset = (fs, U64_MAX)) ∧
    (∀ s n, reset = false → fsRead fs path = some s → parse_u64 s = some n →
      get_checkpoint fs path reset = (fs, n)) := by
  refine ⟨?_, ?_, ?_, ?_⟩
  · rintro rfl
    simp [get_checkpoint, update_checkpoint]
  · intro h
    simp [get_checkpoint, update_checkpoint, h]
  · intro s hr hread hparse
    subst hr
    have hex := fsExists_of_fsRead hread
    simp [get_checkpoint, hex, hread, hparse]
  · intro s n hr hread hparse
    subst hr
    have hex := fsExists_of_fsRead hread
    simp [get_checkpoint, hex, hread, hparse]

/-- Witness for C4: concrete instances of all four cases. -/
theorem get_checkpoint_reset_missing_parse_spec_witness :
    (get_checkpoint [("p", "7")] "p" true
      = ([("p", toString U64_MAX), ("p", "7")], U64_MAX)) ∧
    (get_checkpoint [] "p" false = ([("p", toString U64_MAX)], U64_MAX)) ∧
    (get_checkpoint [("p", "xyz")] "p" false = ([("p", "xyz")], U64_MAX)) ∧
    (get_checkpoint [("p", "7")] "p" false = ([("p", "7")], 7)) :=
  ⟨(get_checkpoint_reset_missing_parse_spec [("p", "7")] "p" true).1 rfl,
   (get_checkpoint_reset_missing_parse_spec [] "p" false).2.1 (by decide),
   (get_checkpoint_reset_missing_parse_spec [("p", "xyz")] "p" false).2.2.1
     "xyz" rfl (by decide) (by decide),
   (get_checkpoint_reset_missing_parse_spec [("p", "7")] "p" false).2.2.2
     "7" 7 rfl (by decide) (by decide)⟩

/-- Claim C6: checkpoint write stores exactly the given text, returns the
text unchanged, and writing "42" then reading with the reset flag off
yields the integer 42. -/
theorem update_checkpoint_roundtrip (fs : FS) (path s : String) :
    (update_checkpoint fs path s).2 = s ∧
    fsRead (update_checkpoint fs path s).1 path = some s ∧
    (get_checkpoint (update_checkpoint fs path "42").1 path false).2 = 42 := by
  refine ⟨rfl, fsRead_fsWrite_self fs path s, ?_⟩
  have hread := fsRead_fsWrite_self fs path "42"
  have hex := fsExists_of_fsRead hread
  have h42 : parse_u64 "42" = some 42 := by decide
  simp [update_checkpoint] at hread hex ⊢
  simp [get_checkpoint, hex, hread, h42]

/-! ## Network-event trace lemmas -/

lemma download_url_events (env : Env) (username dir : String) (media : Media) (w : World) :
    ∃ l, (download_url env username dir media w).1.events = w.events ++ l := by
  rcases hm : media.url with _ | u
  · exact ⟨[], by simp [download_url, hm]⟩
  · simp only [download_url, hm]
    split
    · cases hnet : env.net u.urlString with
      | ok body => exact ⟨[NetEvent.mediaGet u.urlString], by simp [hnet]⟩
      | error e => exact ⟨[NetEvent.mediaGet u.urlString], by simp [hnet]⟩
    · exact ⟨[], by simp⟩


lemma process_keys_events (env : Env) (config : Config) (dir : String)
    (mm : List (String × Media)) (t : Tweet) :
    ∀ keys w count, ∃ l,
      (process_keys env config dir mm t keys w count).1.events = w.events ++ l := by
  intro keys
  induction keys with
  | nil => exact fun w count => ⟨[], by simp [process_keys]⟩
  | cons k rest ih =>
    intro w count
    simp only [process_keys]
    cases hm : mm.lookup k with
    | none => exact ih w count
    | some media =>
      by_cases hk : media.kind = MediaType.Photo
      · simp only [hk, if_true]
        obtain ⟨l1, hl1⟩ := download_url_events env config.username dir media w
        rcases hdl : download_url env config.username dir media w with ⟨w1, r⟩
        rw [hdl] at hl1
        replace hl1 : w1.events = w.events ++ l1 := hl1
        cases r with
        | error e =>
          obtain ⟨l2, hl2⟩ := ih w1 count
          exact ⟨l1 ++ l2, by simp [hl2, hl1]⟩
        | ok d =>
          cases d with
          | true =>
            obtain ⟨l2, hl2⟩ := ih w1 (count + 1)
            exact ⟨l1 ++ l2, by simp [hl2, hl1]⟩
          | false =>
            cases hall : config.download_all with
            | false => exact ⟨l1, by simp [hall, hl1]⟩
            | true =>
              obtain ⟨l2, hl2⟩ := ih w1 count
              exact ⟨l1 ++ l2, by simp [hall, hl2, hl1]⟩
      · simp only [hk, if_false]
        exact ih w count

lemma process_tweets_events (env : Env) (config : Config) (dir : String)
    (mm : List (String × Media)) :
    ∀ tweets w count, ∃ l,
      (process_tweets env config dir mm tweets w count).1.events = w.events ++ l := by
  intro tweets
  induction tweets with
  | nil => exact fun w count => ⟨[], by simp [process_tweets]⟩
  | cons t rest ih =>
    intro w count
    rcases t with ⟨tid, _ | ⟨_ | keys⟩⟩
    · exact ih w count
    · exact ih w count
    · simp only [process_tweets]
      obtain ⟨l1, hl1⟩ := process_keys_events env config dir mm ⟨tid, some ⟨some keys⟩⟩ keys w count
      rcases hpk : process_keys env config dir mm ⟨tid, some ⟨some keys⟩⟩ keys w count
        with ⟨w1, c1, o1⟩
      rw [hpk] at hl1
      replace hl1 : w1.events = w.events ++ l1 := hl1
      cases o1 with
      | some early => exact ⟨l1, by simp [hl1]⟩
      | none =>
        obtain ⟨l2, hl2⟩ := ih w1 c1
        exact ⟨l1 ++ l2, by simp [hl2, hl1]⟩

lemma download_media_events (env : Env) (config : Config) (id marker : Nat) (w : World) :
    ∃ l, (download_media env config id marker w).1.events
      = w.events ++ NetEvent.pageFetch (build_tweets_request config id marker) :: l := by
  simp only [download_media]
  cases hf : env.fetchTweets (build_tweets_request config id marker) with
  | error e => exact ⟨[], by simp⟩
  | ok resp =>
    cases hd : resp.data with
    | none =>
      cases hmt : resp.meta with
      | none => exact ⟨[], by simp [hd, hmt]⟩
      | some meta =>
        cases ho : meta.oldest_id with
        | none => exact ⟨[], by simp [hd, hmt, ho]⟩
        | some oid => exact ⟨[], by simp [hd, hmt, ho]⟩
    | some td =>
      obtain ⟨l1, hl1⟩ := process_tweets_events env config
        (get_user_output_dir config.output_dir config.username)
        (generate_media_map resp.includes) td
        { w with events := w.events ++ [NetEvent.pageFetch (build_tweets_request config id marker)] } 0
      rcases hp : process_tweets env config
        (get_user_output_dir config.output_dir config.username)
        (generate_media_map resp.includes) td
        { w with events := w.events ++ [NetEvent.pageFetch (build_tweets_request config id marker)] } 0
        with ⟨w1, c1, o1⟩
      rw [hp] at hl1
      replace hl1 : w1.events
          = w.events ++ [NetEvent.pageFetch (build_tweets_request config id marker)] ++ l1 := hl1
      cases o1 with
      | some early => exact ⟨l1, by simp [hd, hp, hl1]⟩
      | none =>
        cases hmt : resp.meta with
        | none => exact ⟨l1, by simp [hd, hp, hmt, hl1]⟩
        | some meta =>
          cases ho : meta.oldest_id with
          | none => exact ⟨l1, by simp [hd, hp, hmt, ho, hl1]⟩
          | some oid => exact ⟨l1, by simp [hd, hp, hmt, ho, hl1]⟩

/-- Claim C9: the page request carries no `until_id` bound exactly when the
cursor is the sentinel `u64::MAX`, and otherwise carries the cursor; and
`download_media` always sends exactly that request (first network event of
the page). -/
theorem until_id_sentinel_omitted (env : Env) (config : Config) (id marker : Nat) (w : World) :
    ((build_tweets_request config id marker).until_id
      = if marker = U64_MAX then none else some marker) ∧
    ∃ l, (download_media env config id marker w).1.events
      = w.events ++ NetEvent.pageFetch (build_tweets_request config id marker) :: l := by
  constructor
  · by_cases h : marker = U64_MAX <;> simp [build_tweets_request, h]
  · exact download_media_events env config id marker w

lemma start_download_loop_events (env : Env) (config : Config) (id : Nat) (path : String) :
    ∀ fuel reset total w w' msg,
      start_download_loop env config id path fuel reset total w = some (w', msg) →
      ∃ l, w'.events = w.events ++ l := by
  intro fuel
  induction fuel with
  | zero => intro _ _ _ _ _ h; simp [start_download_loop] at h
  | succ fuel ih =>
    intro reset total w w' msg h
    simp only [start_download_loop] at h
    rcases hcp : get_checkpoint w.fs path reset with ⟨fs1, c⟩
    rw [hcp] at h
    by_cases hc : c = 0
    · rw [if_pos hc] at h
      simp only [Option.some.injEq, Prod.mk.injEq] at h
      exact ⟨[], by rw [← h.1]; simp⟩
    · rw [if_neg hc] at h
      obtain ⟨l1, hl1⟩ := download_media_events env config id c { w with fs := fs1 }
      rcases hdm : download_media env config id c { w with fs := fs1 } with ⟨w2, r⟩
      rw [hdm] at h hl1
      replace hl1 : w2.events
          = w.events ++ NetEvent.pageFetch (build_tweets_request config id c) :: l1 := hl1
      cases r with
      | error e =>
        simp only [Option.some.injEq, Prod.mk.injEq] at h
        exact ⟨_, by rw [← h.1]; exact hl1⟩
      | ok res =>
        rcases res with ⟨oid, cnt⟩
        simp only [update_checkpoint] at h
        cases hall : config.download_all with
        | false =>
          rw [hall, Bool.not_false, if_pos rfl] at h
          simp only [Option.some.injEq, Prod.mk.injEq] at h
          exact ⟨_, by rw [← h.1]; exact hl1⟩
        | true =>
          rw [hall, Bool.not_true, if_neg Bool.false_ne_true] at h
          obtain ⟨l2, hl2⟩ := ih false (total + cnt)
            { w2 with fs := fsWrite w2.fs path oid } w' msg h
          refine ⟨NetEvent.pageFetch (build_tweets_request config id c) :: l1 ++ l2, ?_⟩
          rw [hl2]
          show w2.events ++ l2
            = w.events ++ (NetEvent.pageFetch (build_tweets_request config id c) :: l1 ++ l2)
          rw [hl1]
          simp

/-- Claim C8: with cursor `c` read from the checkpoint, the loop terminates
successfully without any page fetch when `c = 0`, and issues the page-fetch
request built from `c` whenever `c ≠ 0`. -/
theorem checkpoint_zero_stops_nonzero_fetches (env : Env) (config : Config) (id : Nat)
    (path : String) (fuel : Nat) (reset : Bool) (total : Nat) (w : World) (fs1 : FS) (c : Nat)
    (hcp : get_checkpoint w.fs path reset = (fs1, c)) :
    (c = 0 → start_download_loop env config id path (fuel + 1) reset total w
      = some ({ w with fs := fs1 }, "Ok")) ∧
    (c ≠ 0 → ∀ w' msg,
      start_download_loop env config id path (fuel + 1) reset total w = some (w', msg) →
      NetEvent.pageFetch (build_tweets_request config id c) ∈ w'.events) := by
  constructor
  · rintro rfl
    simp [start_download_loop, hcp]
  · intro hc w' msg h
    simp only [start_download_loop] at h
    rw [hcp] at h
    rw [if_neg hc] at h
    obtain ⟨l1, hl1⟩ := download_media_events env config id c { w with fs := fs1 }
    rcases hdm : download_media env config id c { w with fs := fs1 } with ⟨w2, r⟩
    rw [hdm] at h hl1
    replace hl1 : w2.events
        = w.events ++ NetEvent.pageFetch (build_tweets_request config id c) :: l1 := hl1
    have hmem : NetEvent.pageFetch (build_tweets_request config id c) ∈ w2.events := by
      rw [hl1]; simp
    cases r with
    | error e =>
      simp only [Option.some.injEq, Prod.mk.injEq] at h
      rw [← h.1]
      exact hmem
    | ok res =>
      rcases res with ⟨oid, cnt⟩
      simp only [update_checkpoint] at h
      cases hall : config.download_all with
      | false =>
        rw [hall, Bool.not_false, if_pos rfl] at h
        simp only [Option.some.injEq, Prod.mk.injEq] at h
        rw [← h.1]
        exact hmem
      | true =>
        rw [hall, Bool.not_true, if_neg Bool.false_ne_true] at h
        obtain ⟨l2, hl2⟩ := start_download_loop_events env config id path fuel false
          (total + cnt) { w2 with fs := fsWrite w2.fs path oid } w' msg h
        rw [hl2]
        exact List.mem_append_left _ hmem

/-- Claim C5: when the deterministic target path exists, `download_url`
skips with no state change at all (in particular no network event); when
it is absent and the GET succeeds, the first call fetches once and writes
the file, and an immediately repeated call returns `false` leaving the
whole state (file bytes and event trace) untouched. -/
theorem download_if_absent_idempotent (env : Env) (username dir : String) (media : Media)
    (u : Url) (w : World) (hurl : media.url = some u) :
    (fsExists w.fs (dir ++ "/" ++ local_filename media username u) = true →
      download_url env username dir media w = (w, Except.ok false)) ∧
    (∀ body, fsExists w.fs (dir ++ "/" ++ local_filename media username u) = false →
      env.net u.urlString = Except.ok body →
      download_url env username dir media w =
        ({ fs := fsWrite w.fs (dir ++ "/" ++ local_filename media username u) body,
           events := w.events ++ [NetEvent.mediaGet u.urlString] }, Except.ok true) ∧
      download_url env username dir media
          { fs := fsWrite w.fs (dir ++ "/" ++ local_filename media username u) body,
            events := w.events ++ [NetEvent.mediaGet u.urlString] }
        = ({ fs := fsWrite w.fs (dir ++ "/" ++ local_filename media username u) body,
             events := w.events ++ [NetEvent.mediaGet u.urlString] }, Except.ok false)) := by
  constructor
  · intro hex
    simp [download_url, hurl, hex]
  · intro body hex hnet
    constructor
    · simp [download_url, hurl, hex, hnet]
    · have hex2 := fsExists_fsWrite_self w.fs (dir ++ "/" ++ local_filename media username u) body
      simp [download_url, hurl, hex2]

/-- Claim C7: a per-item download error makes the page loop continue with
the next media key, with the same running count, never aborting the page;
and a media item without a URL is exactly such an error. -/
theorem item_error_logged_and_continue (env : Env) (config : Config) (dir : String)
    (mm : List (String × Media)) (t : Tweet) (key : String) (rest : List String)
    (media : Media) (w w' : World) (c : Nat) (e : String)
    (hlk : mm.lookup key = some media) (hph : media.kind = MediaType.Photo)
    (hdl : download_url env config.username dir media w = (w', Except.error e)) :
    process_keys env config dir mm t (key :: rest) w c
      = process_keys env config dir mm t rest w' c ∧
    (∀ m2 w2, m2.url = (none : Option Url) →
      download_url env config.username dir m2 w2
        = (w2, Except.error "Media url not available.")) := by
  constructor
  · simp [process_keys, hlk, hph, hdl]
  · intro m2 w2 hnone
    simp [download_url, hnone]

lemma split_on_slash_ne_nil (l : List Char) : split_on_slash l ≠ [] := by
  cases l with
  | nil => simp [split_on_slash]
  | cons c rest =>
    simp only [split_on_slash]
    by_cases hc : c = '/'
    · simp [hc]
    · simp only [hc, if_false]
      cases h : split_on_slash rest <;> simp

lemma split_on_slash_concat_slash (l : List Char) :
    split_on_slash (l ++ ['/']) = split_on_slash l ++ [[]] := by
  induction l with
  | nil => simp [split_on_slash]
  | cons c rest ih =>
    simp only [List.cons_append, split_on_slash]
    by_cases hc : c = '/'
    · simp [hc, ih]
    · simp only [hc, if_false, List.append_eq]
      rw [ih]
      cases h : split_on_slash rest with
      | nil => exact absurd h (split_on_slash_ne_nil rest)
      | cons g gs => simp

lemma last_segment_of_trailing_slash (s : String) (l : List Char) (h : s.data = l ++ ['/']) :
    last_segment s = "" := by
  unfold last_segment
  rw [h, split_on_slash_concat_slash, List.getLast?_concat]
  rfl

/-- Claim C10: for a media item with a URL whose path ends in a slash, the
local-filename computation is still total: the basename component defaults
to the empty string, the filename is `media_key_username_`, and the
download proceeds through the normal exists-check path. -/
theorem filename_total_empty_basename (env : Env) (username dir : String) (media : Media)
    (u : Url) (l : List Char) (w : World)
    (hurl : media.url = some u) (hpath : u.path.data = l ++ ['/']) :
    last_segment u.path = "" ∧
    local_filename media username u = media.media_key ++ "_" ++ username ++ "_" ∧
    (fsExists w.fs (dir ++ "/" ++ local_filename media username u) = true →
      download_url env username dir media w = (w, Except.ok false)) := by
  have hseg := last_segment_of_trailing_slash u.path l hpath
  refine ⟨hseg, ?_, ?_⟩
  · simp [local_filename, hseg]
  · intro hex
    simp [download_url, hurl, hex]

lemma get_checkpoint_parse_ok {fs : FS} {path s : String} {n : Nat}
    (hread : fsRead fs path = some s) (hp : parse_u64 s = some n) :
    get_checkpoint fs path false = (fs, n) := by
  have hex := fsExists_of_fsRead hread
  simp [get_checkpoint, hex, hread, hp]

/-- Claim C3: when a photo download is skipped because the file already
exists and the run is not in download-all mode, the page loop returns the
current post's own id with the count accumulated so far, and the
orchestrator persists exactly that id as the checkpoint and stops after
this page, reporting only the files downloaded before the stop. -/
theorem early_stop_persists_post_id (env : Env) (config : Config) (id : Nat)
    (path dir : String) (mm : List (String × Media)) (t : Tweet) (key : String)
    (rest : List String) (media : Media) (u : Url) (wk : World) (cnt : Nat)
    (fuel : Nat) (reset : Bool) (total : Nat) (w : World) (fs1 : FS) (c : Nat)
    (w2 : World) (oid : String) (k : Nat)
    (hall : config.download_all = false)
    (hlk : mm.lookup key = some media)
    (hph : media.kind = MediaType.Photo)
    (hurl : media.url = some u)
    (hex : fsExists wk.fs (dir ++ "/" ++ local_filename media config.username u) = true)
    (hcp : get_checkpoint w.fs path reset = (fs1, c))
    (hc : c ≠ 0)
    (hdm : download_media env config id c { w with fs := fs1 } = (w2, Except.ok (oid, k))) :
    process_keys env config dir mm t (key :: rest) wk cnt
      = (wk, cnt, some (toString t.id, cnt)) ∧
    start_download_loop env config id path (fuel + 1) reset total w
      = some ({ w2 with fs := fsWrite w2.fs path oid },
          "Download complete. " ++ toString (total + k) ++ " files downloaded.") := by
  constructor
  · have hskip : download_url env config.username dir media wk = (wk, Except.ok false) := by
      simp [download_url, hurl, hex]
    simp [process_keys, hlk, hph, hskip, hall]
  · simp only [start_download_loop]
    rw [hcp, if_neg hc, hdm]
    simp [update_checkpoint, hall]

/-- Claim C1 (amended): when the page metadata lacks an oldest id ("no more
data") after the page's tweets were processed with `k` downloads, the page
call returns the "No more tweets" error, and the run terminates
successfully reporting only the total accumulated before this page — the
terminal page's `k` downloads are excluded from the reported total. -/
theorem no_more_data_ends_run_excluding_page_count (env : Env) (config : Config)
    (id : Nat) (path : String) (fuel : Nat) (reset : Bool) (total : Nat) (w : World)
    (fs1 : FS) (c : Nat) (resp : TweetsResponse) (td : List Tweet) (w2 : World)
    (k : Nat) (m : Meta)
    (hcp : get_checkpoint w.fs path reset = (fs1, c))
    (hc : c ≠ 0)
    (hfetch : env.fetchTweets (build_tweets_request config id c) = Except.ok resp)
    (hdata : resp.data = some td)
    (hproc : process_tweets env config (get_user_output_dir config.output_dir config.username)
        (generate_media_map resp.includes) td
        { fs := fs1,
          events := w.events ++ [NetEvent.pageFetch (build_tweets_request config id c)] } 0
      = (w2, k, none))
    (hmeta : resp.meta = some m)
    (hoid : m.oldest_id = none) :
    download_media env config id c { w with fs := fs1 }
      = (w2, Except.error ("username: " ++ config.username ++ ". No more tweets")) ∧
    start_download_loop env config id path (fuel + 1) reset total w
      = some (w2, "Download complete. " ++ toString total ++ " files downloaded.") := by
  have h1 : download_media env config id c { w with fs := fs1 }
      = (w2, Except.error ("username: " ++ config.username ++ ". No more tweets")) := by
    simp [download_media, hfetch, hdata, hproc, hmeta, hoid]
  refine ⟨h1, ?_⟩
  simp only [start_download_loop]
  rw [hcp, if_neg hc, h1]

/-- Claim C2 (amended): when the persisted checkpoint parses to 0, the run
terminates successfully with the message "Ok" after the account-identity
resolution as its only network operation — no page fetch and no media
download occur, and the filesystem is untouched. -/
theorem checkpoint_zero_only_lookup (env : Env) (config : Config) (fuel : Nat) (w : World)
    (uid : Nat) (s : String)
    (hlen : config.username.length ≠ 0)
    (hlk : env.lookupUser config.username = Except.ok (some uid))
    (hpos : 0 < uid)
    (hrm : config.reset_marker = false)
    (hcp : fsRead w.fs (get_user_checkpoint_file_path
        (get_user_output_dir config.output_dir config.username)) = some s)
    (hz : parse_u64 s = some 0) :
    start_download env config (fuel + 1) w
      = some ({ w with events := w.events ++ [NetEvent.userLookup config.username] },
          Except.ok "Ok") := by
  have hgc := get_checkpoint_parse_ok hcp hz
  simp [start_download, get_twitter_id, hlen, hlk, hpos, hrm, start_download_loop, hgc]

/-- Counterexample to claim C1 as stated: in exhaustive mode, the first
page downloads both photos of `pageNoMore` (two `mediaGet` events, both
files written) and then reports "no more data", yet the run terminates
reporting "0 files downloaded", not 2 — the terminal page's download count
is not included in the final total. -/
theorem no_more_data_total_counterexample :
    start_download envNoMore configAll 5 wStart
      = some ({ fs := [("out/alice/k2_alice_b.jpg", "bytes"),
                       ("out/alice/k1_alice_a.jpg", "bytes"),
                       ("out/alice/checkpoint", "100")],
                events := [NetEvent.userLookup "alice",
                  NetEvent.pageFetch { user_id := 7, max_results := 100, until_id := some 100 },
                  NetEvent.mediaGet "http://x/a.jpg", NetEvent.mediaGet "http://x/b.jpg"] },
              Except.ok "Download complete. 0 files downloaded.")
    ∧ ("Download complete. 0 files downloaded." : String)
        ≠ "Download complete. 2 files downloaded." := by
  constructor
  · decide
  · decide

/-- Witness for C1 (amended), instantiating the theorem on the concrete
`pageNoMore` scenario: the page downloads 2 files, the run ends after one
page, and the reported total is 0. -/
theorem no_more_data_ends_run_excluding_page_count_witness :
    get_checkpoint wStart.fs "out/alice/checkpoint" false = (wStart.fs, 100) ∧
    envNoMore.fetchTweets (build_tweets_request configAll 7 100) = Except.ok pageNoMore ∧
    download_media envNoMore configAll 7 100 { wStart with fs := wStart.fs }
      = (wNoMoreProcessed,
         Except.error ("username: " ++ configAll.username ++ ". No more tweets")) ∧
    start_download_loop envNoMore configAll 7 "out/alice/checkpoint" 1 false 0 wStart
      = some (wNoMoreProcessed, "Download complete. " ++ toString 0 ++ " files downloaded.") := by
  have h := no_more_data_ends_run_excluding_page_count envNoMore configAll 7
    "out/alice/checkpoint" 0 false 0 wStart wStart.fs 100 pageNoMore
    [{ id := 11, attachments := some { media_keys := some ["k1"] } },
     { id := 12, attachments := some { media_keys := some ["k2"] } }]
    wNoMoreProcessed 2 { oldest_id := none }
    (by decide) (by decide) (by decide) (by decide) (by decide) (by decide) (by decide)
  exact ⟨by decide, by decide, h.1, h.2⟩

/-- Counterexample to claim C2 as stated: with the checkpoint already 0,
the run does terminate successfully, but it is not free of network
operations — the account-identity lookup is performed before the
checkpoint is consulted, so the event trace is nonempty. -/
theorem checkpoint_zero_network_counterexample :
    start_download envNoMore configOne 5 wZero
      = some ({ fs := [("out/alice/checkpoint", "0")],
                events := [NetEvent.userLookup "alice"] }, Except.ok "Ok")
    ∧ ([NetEvent.userLookup "alice"] : List NetEvent) ≠ [] := by
  constructor
  · decide
  · decide

/-- Witness for C2 (amended): the concrete zero-checkpoint run ends with
"Ok" and exactly one network event, the account lookup. -/
theorem checkpoint_zero_only_lookup_witness :
    configOne.username.length ≠ 0 ∧
    envNoMore.lookupUser configOne.username = Except.ok (some 7) ∧
    parse_u64 "0" = some 0 ∧
    start_download envNoMore configOne (4 + 1) wZero
      = some ({ wZero with events := wZero.events ++ [NetEvent.userLookup configOne.username] },
          Except.ok "Ok") := by
  refine ⟨by decide, by decide, by decide, ?_⟩
  exact checkpoint_zero_only_lookup envNoMore configOne 4 wZero 7 "0"
    (by decide) (by decide) (by decide) (by decide) (by decide) (by decide)

/-- Witness for C3 on the concrete `pageSecondExists` scenario: the second
post's photo already exists, non-exhaustive mode; the page stops at that
post, the checkpoint becomes "22" (the post's own id, not the page's
oldest id "21"), and the summary reports the 1 file downloaded before the
stop. -/
theorem early_stop_persists_post_id_witness :
    configOne.download_all = false ∧
    fsExists wAfterFirst.fs
      ("out/alice" ++ "/" ++ local_filename mediaD configOne.username urlD) = true ∧
    download_media envSecondExists configOne 7 100 { wSecondExists with fs := wSecondExists.fs }
      = (wAfterFirst, Except.ok ("22", 1)) ∧
    process_keys envSecondExists configOne "out/alice" [("m2", mediaD)] tweet22
        ["m2"] wAfterFirst 1
      = (wAfterFirst, 1, some (toString tweet22.id, 1)) ∧
    start_download_loop envSecondExists configOne 7 "out/alice/checkpoint" 1 false 0 wSecondExists
      = some ({ wAfterFirst with fs := fsWrite wAfterFirst.fs "out/alice/checkpoint" "22" },
          "Download complete. " ++ toString (0 + 1) ++ " files downloaded.") := by
  have h := early_stop_persists_post_id envSecondExists configOne 7 "out/alice/checkpoint"
    "out/alice" [("m2", mediaD)] tweet22 "m2" [] mediaD urlD wAfterFirst 1 0 false 0
    wSecondExists wSecondExists.fs 100 wAfterFirst "22" 1
    (by decide) (by decide) (by decide) (by decide) (by decide) (by decide) (by decide) (by decide)
  exact ⟨by decide, by decide, by decide, h.1, h.2⟩

/-- Witness for C5: the first call on an absent file fetches and writes it,
the immediately repeated call skips with the state untouched; and a call
on an existing file skips without touching the state. -/
theorem download_if_absent_idempotent_witness :
    mediaC.url = some urlC ∧
    fsExists (([] : FS)) ("out/alice" ++ "/" ++ local_filename mediaC "alice" urlC) = false ∧
    envSecondExists.net urlC.urlString = Except.ok "bytes" ∧
    (download_url envSecondExists "alice" "out/alice" mediaC { fs := [], events := [] }
      = ({ fs := fsWrite [] ("out/alice" ++ "/" ++ local_filename mediaC "alice" urlC) "bytes",
           events := [] ++ [NetEvent.mediaGet urlC.urlString] }, Except.ok true) ∧
     download_url envSecondExists "alice" "out/alice" mediaC
        { fs := fsWrite [] ("out/alice" ++ "/" ++ local_filename mediaC "alice" urlC) "bytes",
          events := [] ++ [NetEvent.mediaGet urlC.urlString] }
      = ({ fs := fsWrite [] ("out/alice" ++ "/" ++ local_filename mediaC "alice" urlC) "bytes",
           events := [] ++ [NetEvent.mediaGet urlC.urlString] }, Except.ok false)) ∧
    download_url envSecondExists "alice" "out/alice" mediaD wSecondExists
      = (wSecondExists, Except.ok false) := by
  refine ⟨by decide, by decide, by decide, ?_, ?_⟩
  · exact (download_if_absent_idempotent envSecondExists "alice" "out/alice" mediaC urlC
      { fs := [], events := [] } (by decide)).2 "bytes" (by decide) (by decide)
  · exact (download_if_absent_idempotent envSecondExists "alice" "out/alice" mediaD urlD
      wSecondExists (by decide)).1 (by decide)

/-- Witness for C7: a photo item with no URL errors, and the page loop on
that key continues to the rest with the same count. -/
theorem item_error_logged_and_continue_witness :
    ([("n1", mediaNoUrl)] : List (String × Media)).lookup "n1" = some mediaNoUrl ∧
    mediaNoUrl.kind = MediaType.Photo ∧
    download_url envNoMore configOne.username "out/alice" mediaNoUrl wZero
      = (wZero, Except.error "Media url not available.") ∧
    process_keys envNoMore configOne "out/alice" [("n1", mediaNoUrl)] tweet30
        ("n1" :: []) wZero 0
      = process_keys envNoMore configOne "out/alice" [("n1", mediaNoUrl)] tweet30 [] wZero 0 := by
  have h := item_error_logged_and_continue envNoMore configOne "out/alice"
    [("n1", mediaNoUrl)] tweet30 "n1" [] mediaNoUrl wZero wZero 0
    "Media url not available." (by decide) (by decide) (by decide)
  exact ⟨by decide, by decide, h.2 mediaNoUrl wZero (by decide), h.1⟩

/-- Witness for C8: a zero cursor stops the loop with "Ok" and no fetch; a
cursor of 100 leads to a run whose trace contains the page-fetch request
built from 100. -/
theorem checkpoint_zero_stops_nonzero_fetches_witness :
    (get_checkpoint wZero.fs "out/alice/checkpoint" false = (wZero.fs, 0) ∧
     start_download_loop envNoMore configOne 7 "out/alice/checkpoint" (0 + 1) false 0 wZero
       = some ({ wZero with fs := wZero.fs }, "Ok")) ∧
    (get_checkpoint wStart.fs "out/alice/checkpoint" false = (wStart.fs, 100) ∧
     NetEvent.pageFetch (build_tweets_request configAll 7 100) ∈ wNoMoreProcessed.events) := by
  constructor
  · refine ⟨by decide, ?_⟩
    exact (checkpoint_zero_stops_nonzero_fetches envNoMore configOne 7 "out/alice/checkpoint"
      0 false 0 wZero wZero.fs 0 (by decide)).1 rfl
  · refine ⟨by decide, ?_⟩
    exact (checkpoint_zero_stops_nonzero_fetches envNoMore configAll 7 "out/alice/checkpoint"
      0 false 0 wStart wStart.fs 100 (by decide)).2 (by decide) wNoMoreProcessed
      "Download complete. 0 files downloaded." (by decide)

/-- Witness for C10: the slash-terminated URL path of `mediaSlash` yields
an empty basename, the filename `p1_alice_`, and the call proceeds and
skips because that file exists. -/
theorem filename_total_empty_basename_witness :
    mediaSlash.url = some urlSlash ∧
    urlSlash.path.data = (['/', 'p', 'i', 'c', 's'] : List Char) ++ ['/'] ∧
    last_segment urlSlash.path = "" ∧
    local_filename mediaSlash "alice" urlSlash
      = mediaSlash.media_key ++ "_" ++ "alice" ++ "_" ∧
    download_url envNoMore "alice" "out/alice" mediaSlash wSlashExists
      = (wSlashExists, Except.ok false) := by
  have h := filename_total_empty_basename envNoMore "alice" "out/alice" mediaSlash urlSlash
    ['/', 'p', 'i', 'c', 's'] wSlashExists (by decide) (by decide)
  exact ⟨by decide, by decide, h.1, h.2.1, h.2.2 (by decide)⟩
